import Mathlib

/-!
Shallow embedding of the AlphaSpike core (return attribution, backtest
engine, tiered feature cache, scan orchestrator) and proofs of the
specification's testable properties against it.

Conventions of the embedding:
* Python floats are modelled as exact rationals (`ℚ`); `round(x, 2)`
  becomes `round2` below.  Off the exact half-cent grid (the only inputs
  the spec exercises) Python's round-half-even and `round2` agree.
* Trade dates are natural numbers ordered like the `YYYYMMDD` strings.
* A pandas `DataFrame` of daily bars is a `Df`: a `ts_code` column value
  plus a list of rows.  The `"ts_code" not in df.columns` guard of the
  source cannot fire in this model because the column exists by
  construction.
* Fallible Python code is embedded in `Except String`; an uncaught
  exception is an `Except.error`.
* `json.dumps`/`json.loads` on a hit list are modelled as the identity:
  stores hold the decoded `List String` payload directly.
-/

namespace AlphaSpike

/-- One row of a daily-bar DataFrame: `trade_date`, `open`, `close`
(the only columns the return logic reads). -/
structure Bar where
  tradeDate : ℕ
  openPrice : ℚ
  close : ℚ
  deriving Repr, DecidableEq

/-- A daily-bar DataFrame: the constant `ts_code` column and the rows. -/
structure Df where
  tsCode : String
  rows : List Bar
  deriving Repr, DecidableEq

/-- Python `round(x, 2)` on an exact rational. -/
def round2 (x : ℚ) : ℚ :=
  ((round (x * 100) : ℤ) : ℚ) / 100

/-- Pandas `Series.max()` over a column: `none` on an empty series
(pandas would yield NaN, which `ℚ` cannot represent). -/
def listMax : List ℚ → Option ℚ
  | [] => none
  | x :: xs => some (xs.foldl max x)

/-- Python `df.iloc[i]` with negative-index wraparound; `none` models the
`IndexError` raised when the index is out of range. -/
def pyIloc {α : Type} (l : List α) (i : ℤ) : Option α :=
  if 0 ≤ i then l[i.toNat]?
  else if (-i).toNat ≤ l.length then l[l.length - (-i).toNat]? else none

/-- Insert a bar into a list sorted by `trade_date` (helper for
`sortBars`). -/
def insertBar (b : Bar) : List Bar → List Bar
  | [] => [b]
  | c :: cs => if b.tradeDate ≤ c.tradeDate then b :: c :: cs else c :: insertBar b cs

/-- `df.sort_values("trade_date")`: insertion sort by `trade_date`
(agrees with any comparison sort when dates are distinct). -/
def sortBars : List Bar → List Bar
  | [] => []
  | b :: bs => insertBar b (sortBars bs)

/-- The "future days": `df[df["trade_date"] > signal_date]` taken on the
sorted frame. -/
def futureBars (df : Df) (signalDate : ℕ) : List Bar :=
  (sortBars df.rows).filter (fun b => signalDate < b.tradeDate)

/-- Result dictionary of `calculate_period_returns`
(src/common/returns.py).  `returns` is the `period -> return` dict, in
request order; a `none` value is Python `None`. -/
structure PeriodReturns where
  tsCode : String
  signalDate : ℕ
  entryDate : ℕ
  entryPrice : ℚ
  returns : List (ℕ × Option ℚ)
  maxReturn : Option ℚ
  deriving Repr, DecidableEq

/-- `calculate_period_returns` (src/common/returns.py lines 6-82),
translated clause by clause.  `.ok none` is Python `return None`;
`.error` is an uncaught exception (`max()` of an empty sequence). -/
def calculate_period_returns (df : Df) (signalDate : ℕ)
    (holdingPeriods : List ℕ) : Except String (Option PeriodReturns) :=
  if df.rows.isEmpty then .ok none else
  match futureBars df signalDate with
  | [] => .ok none
  | entryRow :: rest =>
    let future := entryRow :: rest
    let entryPrice := entryRow.openPrice
    if entryPrice ≤ 0 then .ok none else
    match holdingPeriods.max? with
    | none => .error "ValueError: max() arg is an empty sequence"
    | some maxPeriod =>
      let rets := holdingPeriods.map (fun p =>
        (p, if p ≤ future.length then
              (pyIloc future ((p : ℤ) - 1)).map
                (fun row => round2 ((row.close - entryPrice) / entryPrice * 100))
            else none))
      let availablePeriods := min maxPeriod future.length
      let maxRet :=
        if 0 < availablePeriods then
          (listMax ((future.take availablePeriods).map (·.close))).map
            (fun m => round2 ((m - entryPrice) / entryPrice * 100))
        else none
      .ok (some { tsCode := df.tsCode, signalDate := signalDate,
                  entryDate := entryRow.tradeDate,
                  entryPrice := round2 entryPrice,
                  returns := rets, maxReturn := maxRet })

/-- `BacktestResult` dataclass (src/backtest/backtest.py lines 33-45). -/
structure BacktestResult where
  tsCode : String
  signalDate : ℕ
  entryDate : ℕ
  entryPrice : ℚ
  exitDate : ℕ
  exitPrice : ℚ
  totalReturn : ℚ
  maxReturn : ℚ
  holdingDays : ℕ
  deriving Repr, DecidableEq

/-- `_calculate_future_returns_from_df` (src/backtest/backtest.py lines
48-106), translated clause by clause.  The `.error` branches are only
reachable with `holdingDays = 0` (where pandas would raise `IndexError`
or produce a NaN max over an empty window). -/
def calculate_future_returns_from_df (df : Df) (signalDate : ℕ)
    (holdingDays : ℕ) : Except String (Option BacktestResult) :=
  if df.rows.isEmpty then .ok none else
  let future := futureBars df signalDate
  if future.length < holdingDays then .ok none else
  match future with
  | [] => .error "IndexError: iloc on empty frame"
  | entryRow :: _ =>
    let entryPrice := entryRow.openPrice
    if entryPrice ≤ 0 then .ok none else
    match pyIloc future ((holdingDays : ℤ) - 1) with
    | none => .error "IndexError: iloc out of range"
    | some exitRow =>
      let holding := future.take holdingDays
      match listMax (holding.map (·.close)) with
      | none => .error "NaN: max over empty holding window"
      | some maxClose =>
        .ok (some { tsCode := df.tsCode, signalDate := signalDate,
                    entryDate := entryRow.tradeDate,
                    entryPrice := entryPrice,
                    exitDate := exitRow.tradeDate,
                    exitPrice := exitRow.close,
                    totalReturn := round2 ((exitRow.close - entryPrice) / entryPrice * 100),
                    maxReturn := round2 ((maxClose - entryPrice) / entryPrice * 100),
                    holdingDays := holding.length })

/-- `_empty_stats` / `_calculate_yearly_stats` output dataclass
(src/backtest/backtest.py). -/
structure YearlyBacktestStats where
  featureName : String
  year : ℕ
  totalSignals : ℕ
  winCount : ℕ
  lossCount : ℕ
  winRate : ℚ
  maxWinCount : ℕ
  maxWinRate : ℚ
  totalReturnSum : ℚ
  winReturnSum : ℚ
  lossReturnSum : ℚ
  maxReturnSum : ℚ
  avgReturn : ℚ
  maxReturn : ℚ
  minReturn : ℚ
  tradingDaysCount : ℕ
  deriving Repr, DecidableEq

/-- `_empty_stats` (src/backtest/backtest.py lines 419-438). -/
def empty_stats (featureName : String) (year : ℕ) (tradingDaysCount : ℕ) :
    YearlyBacktestStats :=
  { featureName := featureName, year := year, totalSignals := 0, winCount := 0,
    lossCount := 0, winRate := 0, maxWinCount := 0, maxWinRate := 0,
    totalReturnSum := 0, winReturnSum := 0, lossReturnSum := 0, maxReturnSum := 0,
    avgReturn := 0, maxReturn := 0, minReturn := 0,
    tradingDaysCount := tradingDaysCount }

/-- `_calculate_yearly_stats` (src/backtest/backtest.py lines 441-488),
translated clause by clause. -/
def calculate_yearly_stats (featureName : String) (year : ℕ)
    (results : List BacktestResult) (tradingDaysCount : ℕ) : YearlyBacktestStats :=
  match results with
  | [] => empty_stats featureName year tradingDaysCount
  | r :: rs =>
    let allResults := r :: rs
    let totalSignals := allResults.length
    let winResults := allResults.filter (fun x => decide (0 < x.totalReturn))
    let lossResults := allResults.filter (fun x => decide (x.totalReturn ≤ 0))
    let maxWinResults := allResults.filter (fun x => decide (0 < x.maxReturn))
    let winCount := winResults.length
    let lossCount := lossResults.length
    let winRate := round2 ((winCount : ℚ) / (totalSignals : ℚ) * 100)
    let maxWinCount := maxWinResults.length
    let maxWinRate := round2 ((maxWinCount : ℚ) / (totalSignals : ℚ) * 100)
    let returns := allResults.map (·.totalReturn)
    let totalReturnSum := round2 returns.sum
    let winReturnSum := round2 ((winResults.map (·.totalReturn)).sum)
    let lossReturnSum := round2 ((lossResults.map (·.totalReturn)).sum)
    let maxReturnSum := round2 ((allResults.map (·.maxReturn)).sum)
    let avgReturn := round2 (totalReturnSum / (totalSignals : ℚ))
    let maxRet := round2 ((rs.map (·.totalReturn)).foldl max r.totalReturn)
    let minRet := round2 ((rs.map (·.totalReturn)).foldl min r.totalReturn)
    { featureName := featureName, year := year, totalSignals := totalSignals,
      winCount := winCount, lossCount := lossCount, winRate := winRate,
      maxWinCount := maxWinCount, maxWinRate := maxWinRate,
      totalReturnSum := totalReturnSum, winReturnSum := winReturnSum,
      lossReturnSum := lossReturnSum, maxReturnSum := maxReturnSum,
      avgReturn := avgReturn, maxReturn := maxRet, minReturn := minRet,
      tradingDaysCount := tradingDaysCount }

/-! ### Helper lemmas about the return-attribution embedding -/

/-- An empty frame has no future bars. -/
lemma futureBars_of_rows_nil (df : Df) (sig : ℕ) (h : df.rows = []) :
    futureBars df sig = [] := by
  simp [futureBars, h, sortBars]

/-- A frame with future bars has rows. -/
lemma rows_not_isEmpty_of_futureBars (df : Df) (sig : ℕ) (e : Bar) (rest : List Bar)
    (h : futureBars df sig = e :: rest) : df.rows.isEmpty = false := by
  rcases hr : df.rows with _ | _
  · rw [futureBars_of_rows_nil df sig hr] at h
    exact absurd h (by simp)
  · simp [hr]

/-- `pyIloc` at the nonnegative index `P - 1`. -/
lemma pyIloc_sub_one {α : Type} (l : List α) (P : ℕ) (hP : 1 ≤ P) :
    pyIloc l ((P : ℤ) - 1) = l[P - 1]? := by
  unfold pyIloc
  rw [if_pos (by omega)]
  congr 1
  omega

/-- `listMax` of a nonempty list. -/
lemma listMax_cons (x : ℚ) (xs : List ℚ) : listMax (x :: xs) = some (xs.foldl max x) := rfl

/-- `calculate_period_returns` is null when there is no future day. -/
lemma cpr_none_of_future_nil (df : Df) (sig : ℕ) (ps : List ℕ)
    (h : futureBars df sig = []) :
    calculate_period_returns df sig ps = .ok none := by
  unfold calculate_period_returns
  rw [h]
  cases df.rows.isEmpty <;> simp

/-- `calculate_period_returns` is null when the entry open is non-positive. -/
lemma cpr_none_of_entry_nonpos (df : Df) (sig : ℕ) (ps : List ℕ) (e : Bar) (rest : List Bar)
    (hf : futureBars df sig = e :: rest) (hle : e.openPrice ≤ 0) :
    calculate_period_returns df sig ps = .ok none := by
  unfold calculate_period_returns
  rw [rows_not_isEmpty_of_futureBars df sig e rest hf, hf]
  simp [hle]

/-- `calculate_period_returns` with a positive entry raises when
`holding_periods` is empty (`max()` of an empty sequence). -/
lemma cpr_error_of_no_periods (df : Df) (sig : ℕ) (e : Bar) (rest : List Bar)
    (hf : futureBars df sig = e :: rest) (hpos : 0 < e.openPrice) :
    calculate_period_returns df sig [] =
      .error "ValueError: max() arg is an empty sequence" := by
  unfold calculate_period_returns
  rw [rows_not_isEmpty_of_futureBars df sig e rest hf, hf]
  simp [not_le.mpr hpos, List.max?]

/-- Full characterization of `calculate_period_returns` on the successful
path. -/
lemma cpr_eq_some (df : Df) (sig : ℕ) (ps : List ℕ) (e : Bar) (rest : List Bar) (mp : ℕ)
    (hf : futureBars df sig = e :: rest) (hpos : 0 < e.openPrice)
    (hmp : ps.max? = some mp) :
    calculate_period_returns df sig ps = .ok (some
      { tsCode := df.tsCode, signalDate := sig, entryDate := e.tradeDate,
        entryPrice := round2 e.openPrice,
        returns := ps.map (fun p =>
          (p, if p ≤ (e :: rest).length then
                (pyIloc (e :: rest) ((p : ℤ) - 1)).map
                  (fun row => round2 ((row.close - e.openPrice) / e.openPrice * 100))
              else none)),
        maxReturn :=
          if 0 < min mp (e :: rest).length then
            (listMax (((e :: rest).take (min mp (e :: rest).length)).map (·.close))).map
              (fun m => round2 ((m - e.openPrice) / e.openPrice * 100))
          else none }) := by
  unfold calculate_period_returns
  rw [rows_not_isEmpty_of_futureBars df sig e rest hf, hf]
  simp [not_le.mpr hpos, hmp]

/-- The engine is null when fewer future days than the holding period
exist. -/
lemma cfr_none_of_short (df : Df) (sig : ℕ) (P : ℕ)
    (h : (futureBars df sig).length < P) :
    calculate_future_returns_from_df df sig P = .ok none := by
  unfold calculate_future_returns_from_df
  cases df.rows.isEmpty <;> simp [h]

/-- The engine is null when the entry open is non-positive. -/
lemma cfr_none_of_entry_nonpos (df : Df) (sig : ℕ) (P : ℕ) (e : Bar) (rest : List Bar)
    (hf : futureBars df sig = e :: rest) (hle : e.openPrice ≤ 0) :
    calculate_future_returns_from_df df sig P = .ok none := by
  unfold calculate_future_returns_from_df
  rw [rows_not_isEmpty_of_futureBars df sig e rest hf, hf]
  simp [hle]

/-- Full characterization of the engine on the successful path. -/
lemma cfr_eq_some (df : Df) (sig : ℕ) (P : ℕ) (e : Bar) (rest : List Bar)
    (exitRow : Bar) (m : ℚ)
    (hf : futureBars df sig = e :: rest) (hpos : 0 < e.openPrice) (hP : 1 ≤ P)
    (hexit : (e :: rest)[P - 1]? = some exitRow)
    (hmax : listMax (((e :: rest).take P).map (·.close)) = some m) :
    calculate_future_returns_from_df df sig P = .ok (some
      { tsCode := df.tsCode, signalDate := sig, entryDate := e.tradeDate,
        entryPrice := e.openPrice, exitDate := exitRow.tradeDate,
        exitPrice := exitRow.close,
        totalReturn := round2 ((exitRow.close - e.openPrice) / e.openPrice * 100),
        maxReturn := round2 ((m - e.openPrice) / e.openPrice * 100),
        holdingDays := ((e :: rest).take P).length }) := by
  have hidx : P - 1 < (e :: rest).length := by
    have := List.getElem?_eq_some.mp hexit
    exact this.1
  have hlen : ¬ (e :: rest).length < P := by omega
  unfold calculate_future_returns_from_df
  rw [rows_not_isEmpty_of_futureBars df sig e rest hf, hf]
  have hlen' : ¬ rest.length + 1 < P := by simpa using hlen
  simp only [Bool.false_eq_true, if_false, List.length_cons]
  rw [if_neg hlen']
  simp [not_le.mpr hpos, pyIloc_sub_one (e :: rest) P hP, hexit]
  have hmax' : listMax (List.take P (e.close :: List.map (fun x => x.close) rest)) =
      some m := by simpa using hmax
  rw [hmax']

/-- Concrete frame for the worked example of §8 of the spec: opens
[10.0, 10.5, 10.8, 11.0, 11.2, 11.0, 10.8], closes
[10.4, 10.7, 11.0, 11.3, 11.5, 11.2, 10.9] on days 0..6. -/
def c6Df : Df :=
  { tsCode := "EX",
    rows := [⟨0, 10.0, 10.4⟩, ⟨1, 10.5, 10.7⟩, ⟨2, 10.8, 11.0⟩, ⟨3, 11.0, 11.3⟩,
             ⟨4, 11.2, 11.5⟩, ⟨5, 11.0, 11.2⟩, ⟨6, 10.8, 10.9⟩] }

/-- C6: `calculate_period_returns` implements the specified algorithm:
null when no day lies strictly after the signal date or the first
future day's open is ≤ 0; otherwise entry is the first future day's
open, every requested period `p` with at least `p` future days yields
`round2` of the percentage return at the close of the `p`-th future day,
a period with fewer future days maps to `none` (never zero), the max
return is taken over the closes of the first `max(holdingPeriods)`
future days (clamped to what is available), and the §8 worked example
yields entry price 10.5, total return 6.67, and max return 9.52. -/
theorem c6_return_attribution_algorithm :
    (∀ df sig ps, futureBars df sig = [] →
        calculate_period_returns df sig ps = .ok none) ∧
    (∀ df sig ps e rest, futureBars df sig = e :: rest → e.openPrice ≤ 0 →
        calculate_period_returns df sig ps = .ok none) ∧
    (∀ df sig ps e rest, futureBars df sig = e :: rest → 0 < e.openPrice → ps ≠ [] →
      ∃ b, calculate_period_returns df sig ps = .ok (some b) ∧
        b.entryDate = e.tradeDate ∧
        b.entryPrice = round2 e.openPrice ∧
        (∀ p ∈ ps, 1 ≤ p →
          (∀ row, (e :: rest)[p - 1]? = some row →
            (p, some (round2 ((row.close - e.openPrice) / e.openPrice * 100))) ∈ b.returns) ∧
          ((e :: rest).length < p → (p, (none : Option ℚ)) ∈ b.returns)) ∧
        (∀ mp, ps.max? = some mp → 1 ≤ mp →
          ∃ m, listMax (((e :: rest).take mp).map (·.close)) = some m ∧
            b.maxReturn = some (round2 ((m - e.openPrice) / e.openPrice * 100)))) ∧
    calculate_period_returns c6Df 0 [5] = .ok (some
      { tsCode := "EX", signalDate := 0, entryDate := 1, entryPrice := 10.5,
        returns := [(5, some 6.67)], maxReturn := some 9.52 }) := by
  refine ⟨cpr_none_of_future_nil, ?_, ?_, ?_⟩
  · intro df sig ps e rest hf hle
    exact cpr_none_of_entry_nonpos df sig ps e rest hf hle
  · intro df sig ps e rest hf hpos hne
    rcases hps : ps with _ | ⟨p₀, ps'⟩
    · exact absurd hps hne
    have hmp : ps.max? = some (ps'.foldl max p₀) := by rw [hps]; rfl
    rw [← hps]
    refine ⟨_, cpr_eq_some df sig ps e rest _ hf hpos hmp, rfl, rfl, ?_, ?_⟩
    · intro p hp hp1
      constructor
      · intro row hrow
        have hplen : p ≤ (e :: rest).length := by
          have := (List.getElem?_eq_some.mp hrow).1
          omega
        refine List.mem_map.mpr ⟨p, hp, ?_⟩
        show (p, if p ≤ (e :: rest).length then
            (pyIloc (e :: rest) ((p : ℤ) - 1)).map
              (fun row => round2 ((row.close - e.openPrice) / e.openPrice * 100))
          else none) = _
        rw [if_pos hplen, pyIloc_sub_one (e :: rest) p hp1, hrow]
        rfl
      · intro hlong
        refine List.mem_map.mpr ⟨p, hp, ?_⟩
        show (p, if p ≤ (e :: rest).length then
            (pyIloc (e :: rest) ((p : ℤ) - 1)).map
              (fun row => round2 ((row.close - e.openPrice) / e.openPrice * 100))
          else none) = _
        rw [if_neg (by omega)]
    · intro mp hmp' hmp1
      have hmpeq : mp = ps'.foldl max p₀ := by
        rw [hmp] at hmp'
        exact (Option.some_injective _ hmp').symm
      rw [← hmpeq]
      obtain ⟨k, hk⟩ : ∃ k, mp = k + 1 := ⟨mp - 1, by omega⟩
      subst hk
      have htake : (e :: rest).take (min (k + 1) (e :: rest).length) =
          (e :: rest).take (k + 1) := by
        rw [← List.take_take, List.take_length]
      have hmin : 0 < min (k + 1) (e :: rest).length := by
        rw [lt_min_iff]
        exact ⟨Nat.succ_pos k, by simp⟩
      refine ⟨(((rest.take k).map (·.close)).foldl max e.close), ?_, ?_⟩
      · simp [List.take_succ_cons, listMax]
      · rw [if_pos hmin, htake]
        simp [List.take_succ_cons, listMax]
  · norm_num [calculate_period_returns, futureBars, sortBars, insertBar, c6Df,
      List.filter, List.max?, pyIloc, listMax, round2, round_eq]

/-- Witness for C6: the hypothesis-bearing clauses instantiated at the
worked example. -/
theorem c6_witness :
    ∃ b, calculate_period_returns c6Df 0 [5] = .ok (some b) ∧
      b.entryDate = 1 ∧ b.entryPrice = round2 10.5 := by
  have h := c6_return_attribution_algorithm.2.2.1 c6Df 0 [5]
    ⟨1, 10.5, 10.7⟩
    [⟨2, 10.8, 11.0⟩, ⟨3, 11.0, 11.3⟩, ⟨4, 11.2, 11.5⟩, ⟨5, 11.0, 11.2⟩, ⟨6, 10.8, 10.9⟩]
    (by simp [futureBars, sortBars, insertBar, c6Df, List.filter])
    (by norm_num) (by simp)
  obtain ⟨b, hb, hd, hp, _, _⟩ := h
  exact ⟨b, hb, hd, hp⟩

/-- Concrete frame for the C10 witness: one signal day and one future
day with a positive open. -/
def c10Df : Df :=
  { tsCode := "A", rows := [⟨0, 10, 10⟩, ⟨1, 10, 11⟩] }

/-- C10: a non-empty `holding_periods` list is an undocumented
precondition: with at least one future day and a positive entry open,
`calculate_period_returns` with an empty `holding_periods` raises
(`max()` of an empty sequence) instead of returning null. -/
theorem c10_empty_holding_periods_raise (df : Df) (sig : ℕ) (e : Bar) (rest : List Bar)
    (hf : futureBars df sig = e :: rest) (hpos : 0 < e.openPrice) :
    calculate_period_returns df sig [] =
      .error "ValueError: max() arg is an empty sequence" :=
  cpr_error_of_no_periods df sig e rest hf hpos

/-- Witness for C10 at a concrete frame. -/
theorem c10_witness :
    calculate_period_returns c10Df 0 [] =
      .error "ValueError: max() arg is an empty sequence" :=
  c10_empty_holding_periods_raise c10Df 0 ⟨1, 10, 11⟩ []
    (by simp [futureBars, sortBars, insertBar, c10Df, List.filter])
    (by norm_num)

/-- Frame with a single future day (for refuting C1's non-null
equivalence at horizon 5). -/
def c1DfA : Df := { tsCode := "A", rows := [⟨0, 10, 10⟩, ⟨1, 10, 11⟩] }

/-- Frame whose entry open (10.126) has more than two decimals (for
refuting C1's entry-price agreement). -/
def c1DfB : Df := { tsCode := "B", rows := [⟨0, 1, 1⟩, ⟨1, 10.126, 10.2⟩] }

/-- Counterexample to C1 as stated: (i) with one future day and horizon
5, the engine returns null while `calculate_period_returns` does not;
(ii) with entry open 10.126 both are non-null but the engine reports the
raw entry price while `calculate_period_returns` reports it rounded to
two decimals. -/
theorem c1_counterexample :
    (calculate_future_returns_from_df c1DfA 0 5 = .ok none ∧
      calculate_period_returns c1DfA 0 [5] = .ok (some
        { tsCode := "A", signalDate := 0, entryDate := 1, entryPrice := 10,
          returns := [(5, none)], maxReturn := some 10 })) ∧
    (∃ a b, calculate_future_returns_from_df c1DfB 0 1 = .ok (some a) ∧
      calculate_period_returns c1DfB 0 [1] = .ok (some b) ∧
      a.entryPrice ≠ b.entryPrice) := by
  refine ⟨⟨?_, ?_⟩,
    ⟨{ tsCode := "B", signalDate := 0, entryDate := 1, entryPrice := 10.126,
       exitDate := 1, exitPrice := 10.2, totalReturn := 0.73, maxReturn := 0.73,
       holdingDays := 1 },
     { tsCode := "B", signalDate := 0, entryDate := 1, entryPrice := 10.13,
       returns := [(1, some 0.73)], maxReturn := some 0.73 }, ?_, ?_, ?_⟩⟩
  · norm_num [calculate_future_returns_from_df, futureBars, sortBars, insertBar,
      c1DfA, List.filter]
  · norm_num [calculate_period_returns, futureBars, sortBars, insertBar, c1DfA,
      List.filter, List.max?, pyIloc, listMax, round2, round_eq]
  · norm_num [calculate_future_returns_from_df, futureBars, sortBars, insertBar,
      c1DfB, List.filter, pyIloc, listMax, round2, round_eq]
  · norm_num [calculate_period_returns, futureBars, sortBars, insertBar, c1DfB,
      List.filter, List.max?, pyIloc, listMax, round2, round_eq]
  · norm_num

/-- C1 amended: at horizon `P ≥ 1` the engine is non-null iff
`calculate_period_returns` with periods `{P}` is non-null AND at least
`P` future days exist; when both are non-null they agree on entry date,
total return, and max return, and the period-returns entry price is the
engine's entry price rounded to two decimals. -/
theorem c1_amended (df : Df) (sig P : ℕ) (hP : 1 ≤ P) :
    ((∃ a, calculate_future_returns_from_df df sig P = .ok (some a)) ↔
      ((∃ b, calculate_period_returns df sig [P] = .ok (some b)) ∧
        P ≤ (futureBars df sig).length)) ∧
    (∀ a b, calculate_future_returns_from_df df sig P = .ok (some a) →
        calculate_period_returns df sig [P] = .ok (some b) →
      b.entryPrice = round2 a.entryPrice ∧ b.entryDate = a.entryDate ∧
      b.returns = [(P, some a.totalReturn)] ∧ b.maxReturn = some a.maxReturn) := by
  rcases hf : futureBars df sig with _ | ⟨e, rest⟩
  · have heng : calculate_future_returns_from_df df sig P = .ok none :=
      cfr_none_of_short df sig P (by rw [hf]; simpa using hP)
    constructor
    · constructor
      · intro ⟨a, ha⟩
        rw [heng] at ha
        exact absurd ha (by simp)
      · intro ⟨_, hlen⟩
        simp at hlen
        omega
    · intro a b ha _
      rw [heng] at ha
      exact absurd ha (by simp)
  · by_cases hlen : P ≤ (e :: rest).length
    · by_cases hpos : 0 < e.openPrice
      · obtain ⟨k, rfl⟩ : ∃ k, P = k + 1 := ⟨P - 1, by omega⟩
        have hidx : k < (e :: rest).length := by omega
        have hexit : (e :: rest)[k]? = some ((e :: rest).get ⟨k, hidx⟩) := by
          rw [List.getElem?_eq_getElem hidx]
          rfl
        have hexit' : (e :: rest)[k + 1 - 1]? = some ((e :: rest).get ⟨k, hidx⟩) := hexit
        have hmax : listMax (((e :: rest).take (k + 1)).map (·.close)) =
            some (((rest.take k).map (·.close)).foldl max e.close) := by
          simp [List.take_succ_cons, listMax]
        have heng := cfr_eq_some df sig (k + 1) e rest ((e :: rest).get ⟨k, hidx⟩) _
          hf hpos (by omega) hexit' hmax
        have hmp : ([k + 1] : List ℕ).max? = some (k + 1) := rfl
        have hprs := cpr_eq_some df sig [k + 1] e rest (k + 1) hf hpos hmp
        have htake : (e :: rest).take (min (k + 1) (e :: rest).length) =
            (e :: rest).take (k + 1) := by
          rw [← List.take_take, List.take_length]
        have hmin : 0 < min (k + 1) (e :: rest).length := by
          rw [lt_min_iff]
          exact ⟨Nat.succ_pos k, by simp⟩
        constructor
        · constructor
          · intro _
            exact ⟨⟨_, hprs⟩, hlen⟩
          · intro _
            exact ⟨_, heng⟩
        · intro a b ha hb
          rw [heng] at ha
          rw [hprs] at hb
          have ha' := Option.some.inj (Except.ok.inj ha)
          have hb' := Option.some.inj (Except.ok.inj hb)
          subst ha'
          subst hb'
          refine ⟨rfl, rfl, ?_, ?_⟩
          · simp only [List.map_cons, List.map_nil]
            rw [if_pos hlen, pyIloc_sub_one (e :: rest) (k + 1) (by omega), hexit']
            rfl
          · simp only []
            rw [if_pos hmin, htake, hmax]
            rfl
      · have hle : e.openPrice ≤ 0 := not_lt.mp hpos
        have heng := cfr_none_of_entry_nonpos df sig P e rest hf hle
        have hprs := cpr_none_of_entry_nonpos df sig [P] e rest hf hle
        constructor
        · constructor
          · intro ⟨a, ha⟩
            rw [heng] at ha
            exact absurd ha (by simp)
          · intro ⟨⟨b, hb⟩, _⟩
            rw [hprs] at hb
            exact absurd hb (by simp)
        · intro a b ha _
          rw [heng] at ha
          exact absurd ha (by simp)
    · have heng : calculate_future_returns_from_df df sig P = .ok none :=
        cfr_none_of_short df sig P (by rw [hf]; omega)
      constructor
      · constructor
        · intro ⟨a, ha⟩
          rw [heng] at ha
          exact absurd ha (by simp)
        · intro ⟨_, hl⟩
          exact absurd hl hlen
      · intro a b ha _
        rw [heng] at ha
        exact absurd ha (by simp)

/-- Witness for C1 amended at the concrete frame `c1DfB`, horizon 1. -/
theorem c1_amended_witness :
    (∃ a, calculate_future_returns_from_df c1DfB 0 1 = .ok (some a)) ↔
      ((∃ b, calculate_period_returns c1DfB 0 [1] = .ok (some b)) ∧
        1 ≤ (futureBars c1DfB 0).length) :=
  (c1_amended c1DfB 0 1 (by decide)).1

/-- Concrete results for the §8 yearly-aggregation worked example:
total returns [+5, −2, +3, −1]. -/
def c7Results : List BacktestResult :=
  [{ tsCode := "A", signalDate := 0, entryDate := 1, entryPrice := 10, exitDate := 6,
     exitPrice := 10.5, totalReturn := 5, maxReturn := 6, holdingDays := 5 },
   { tsCode := "B", signalDate := 0, entryDate := 1, entryPrice := 10, exitDate := 6,
     exitPrice := 9.8, totalReturn := -2, maxReturn := 1, holdingDays := 5 },
   { tsCode := "C", signalDate := 0, entryDate := 1, entryPrice := 10, exitDate := 6,
     exitPrice := 10.3, totalReturn := 3, maxReturn := 4, holdingDays := 5 },
   { tsCode := "D", signalDate := 0, entryDate := 1, entryPrice := 10, exitDate := 6,
     exitPrice := 9.9, totalReturn := -1, maxReturn := -1, holdingDays := 5 }]

/-- C7: yearly aggregation counts a win iff `totalReturn > 0` and a loss
iff `totalReturn ≤ 0` (exact zero is a loss), `winRate = wins/total×100`,
`maxWinRate` counts the sign of `maxReturn` instead; the worked example
[+5, −2, +3, −1] gives winCount 2, lossCount 2, winRate 50, sum +5,
average +1.25, max +5, min −2; an empty result list yields the all-zero
stats with the trading-days count preserved. -/
theorem c7_yearly_aggregation :
    (∀ name year days (rs : List BacktestResult), rs ≠ [] →
      (calculate_yearly_stats name year rs days).winCount =
          rs.countP (fun x => decide (0 < x.totalReturn)) ∧
      (calculate_yearly_stats name year rs days).lossCount =
          rs.countP (fun x => decide (x.totalReturn ≤ 0)) ∧
      (calculate_yearly_stats name year rs days).winCount +
          (calculate_yearly_stats name year rs days).lossCount = rs.length ∧
      (calculate_yearly_stats name year rs days).winRate =
          round2 ((rs.countP (fun x => decide (0 < x.totalReturn)) : ℚ) /
            (rs.length : ℚ) * 100) ∧
      (calculate_yearly_stats name year rs days).maxWinCount =
          rs.countP (fun x => decide (0 < x.maxReturn)) ∧
      (calculate_yearly_stats name year rs days).maxWinRate =
          round2 ((rs.countP (fun x => decide (0 < x.maxReturn)) : ℚ) /
            (rs.length : ℚ) * 100) ∧
      (calculate_yearly_stats name year rs days).tradingDaysCount = days) ∧
    calculate_yearly_stats "f" 2024 c7Results 250 =
      { featureName := "f", year := 2024, totalSignals := 4, winCount := 2,
        lossCount := 2, winRate := 50, maxWinCount := 3, maxWinRate := 75,
        totalReturnSum := 5, winReturnSum := 8, lossReturnSum := -3,
        maxReturnSum := 10, avgReturn := 1.25, maxReturn := 5, minReturn := -2,
        tradingDaysCount := 250 } ∧
    (∀ name year days, calculate_yearly_stats name year [] days =
        empty_stats name year days) ∧
    (∀ name year days,
      (empty_stats name year days).totalSignals = 0 ∧
      (empty_stats name year days).winCount = 0 ∧
      (empty_stats name year days).winRate = 0 ∧
      (empty_stats name year days).totalReturnSum = 0 ∧
      (empty_stats name year days).avgReturn = 0 ∧
      (empty_stats name year days).tradingDaysCount = days) := by
  refine ⟨?_, ?_, ?_, ?_⟩
  · intro name year days rs hne
    rcases rs with _ | ⟨r, rs'⟩
    · exact absurd rfl hne
    have hcnt : ∀ (l : List BacktestResult),
        l.countP (fun x => decide (x.totalReturn ≤ 0)) =
        l.countP (fun x => decide (¬ decide (0 < x.totalReturn) = true)) := by
      intro l
      apply List.countP_congr
      intro x _
      simp [decide_eq_decide, not_lt]
    refine ⟨?_, ?_, ?_, ?_, ?_, ?_, ?_⟩
    · simp [calculate_yearly_stats, List.countP_eq_length_filter]
    · simp [calculate_yearly_stats, List.countP_eq_length_filter]
    · have h1 : (calculate_yearly_stats name year (r :: rs') days).winCount =
          (r :: rs').countP (fun x => decide (0 < x.totalReturn)) := by
        simp [calculate_yearly_stats, List.countP_eq_length_filter]
      have h2 : (calculate_yearly_stats name year (r :: rs') days).lossCount =
          (r :: rs').countP (fun x => decide (x.totalReturn ≤ 0)) := by
        simp [calculate_yearly_stats, List.countP_eq_length_filter]
      rw [h1, h2, hcnt]
      exact (List.length_eq_countP_add_countP _ _).symm
    · simp [calculate_yearly_stats, List.countP_eq_length_filter]
    · simp [calculate_yearly_stats, List.countP_eq_length_filter]
    · simp [calculate_yearly_stats, List.countP_eq_length_filter]
    · simp [calculate_yearly_stats]
  · norm_num [calculate_yearly_stats, c7Results, List.filter_cons, decide_eq_true_eq,
      round2, round_eq, max_def, min_def, List.foldl]
  · intro name year days
    rfl
  · intro name year days
    simp [empty_stats]

/-- Witness for C7's hypothesis-bearing clause at the worked example. -/
theorem c7_witness :
    (calculate_yearly_stats "f" 2024 c7Results 250).winCount =
        c7Results.countP (fun x => decide (0 < x.totalReturn)) ∧
    (calculate_yearly_stats "f" 2024 c7Results 250).tradingDaysCount = 250 := by
  have h := c7_yearly_aggregation.1 "f" 2024 250 c7Results (by simp [c7Results])
  exact ⟨h.1, h.2.2.2.2.2.2⟩

/-! ### Tiered result cache (src/alphaspike/cache.py, src/alphaspike/db.py) -/

/-- Association-list lookup (models a keyed SQL row lookup or a Redis
`GET`). -/
def alookup {α β : Type} [DecidableEq α] (k : α) : List (α × β) → Option β
  | [] => none
  | (a, b) :: rest => if a = k then some b else alookup k rest

/-- Association-list upsert (models `INSERT OR REPLACE` or a Redis
`SET`). -/
def aupdate {α β : Type} [DecidableEq α] (k : α) (v : β) : List (α × β) → List (α × β)
  | [] => [(k, v)]
  | (a, b) :: rest => if a = k then (k, v) :: rest else (a, b) :: aupdate k v rest

/-- The cold tier: the SQLite `feature_result` table, keyed by
`(feature_name, scan_date)` with a JSON-encoded ts-code list payload. -/
structure ColdTier where
  table : List ((String × String) × List String)
  deriving Repr, DecidableEq

/-- `get_feature_result` (src/alphaspike/db.py lines 25-44). -/
def get_feature_result (cold : ColdTier) (featureName scanDate : String) :
    Option (List String) :=
  alookup (featureName, scanDate) cold.table

/-- `save_feature_result` (src/alphaspike/db.py lines 47-62):
`INSERT OR REPLACE` keyed by `(feature_name, scan_date)`. -/
def save_feature_result (cold : ColdTier) (featureName scanDate : String)
    (tsCodes : List String) : ColdTier :=
  ⟨aupdate (featureName, scanDate) tsCodes cold.table⟩

/-- The hot tier: a Redis client that is either reachable (with its
key-value store) or unreachable, in which case every command raises a
connection error. -/
inductive RedisClient : Type where
  | reachable (store : List (String × List String)) : RedisClient
  | unreachable : RedisClient
  deriving Repr, DecidableEq

/-- A Redis `PING`: raises on an unreachable server. -/
def redisPing : RedisClient → Except String RedisClient
  | .reachable s => .ok (.reachable s)
  | .unreachable => .error "ConnectionError"

/-- A Redis `GET`: raises on an unreachable server. -/
def redisGet (c : RedisClient) (key : String) : Except String (Option (List String)) :=
  match c with
  | .reachable s => .ok (alookup key s)
  | .unreachable => .error "ConnectionError"

/-- A Redis `SET key value EX ttl`: raises on an unreachable server.
The expiry is recorded nowhere because wall-clock time is outside the
model. -/
def redisSet (c : RedisClient) (key : String) (value : List String) (ttl : ℕ) :
    Except String RedisClient :=
  match c, ttl with
  | .reachable s, _ => .ok (.reachable (aupdate key value s))
  | .unreachable, _ => .error "ConnectionError"

/-- `FEATURE_CACHE_TTL_SECONDS` (src/common/config.py): 14 days. -/
def FEATURE_CACHE_TTL_SECONDS : ℕ := 14 * 24 * 60 * 60

/-- `_get_feature_cache_key` (src/alphaspike/cache.py lines 19-31). -/
def featureCacheKey (featureName date : String) : String :=
  "feature:" ++ featureName ++ ":" ++ date

/-- `get_redis_client` (src/common/redis.py lines 40-63): pings the
server and catches any failure, returning `None`. -/
def get_redis_client (server : RedisClient) : Option RedisClient :=
  match redisPing server with
  | .ok c => some c
  | .error _ => none

/-- Steps 3-5 of `get_feature_cache`: the SQLite fallback, populating
Redis on a hit. -/
def getFromCold (featureName date : String) (client : Option RedisClient)
    (cold : ColdTier) :
    Except String (Option (List String)) × Option RedisClient × ColdTier :=
  match get_feature_result cold featureName date with
  | some result =>
    match client with
    | some c =>
      match redisSet c (featureCacheKey featureName date) result FEATURE_CACHE_TTL_SECONDS with
      | .ok c' => (.ok (some result), some c', cold)
      | .error e => (.error e, some c, cold)
    | none => (.ok (some result), none, cold)
  | none => (.ok none, client, cold)

/-- `get_feature_cache` (src/alphaspike/cache.py lines 32-72): Redis
first, SQLite fallback, with SQLite backfill on a Redis hit.  The
result triple is (returned value or uncaught exception, client state,
cold-tier state); there is no exception handler in the source, so a
raising Redis command surfaces as `.error`. -/
def get_feature_cache (featureName date : String) (client : Option RedisClient)
    (cold : ColdTier) :
    Except String (Option (List String)) × Option RedisClient × ColdTier :=
  match client with
  | some c =>
    match redisGet c (featureCacheKey featureName date) with
    | .error e => (.error e, some c, cold)
    | .ok (some result) =>
      let cold' := if (get_feature_result cold featureName date).isNone
        then save_feature_result cold featureName date result else cold
      (.ok (some result), some c, cold')
    | .ok none => getFromCold featureName date (some c) cold
  | none => getFromCold featureName date none cold

/-- `set_feature_cache` (src/alphaspike/cache.py lines 75-95):
write-through, SQLite first, then Redis when a client is present.  No
exception handler: a raising Redis `SET` surfaces as `.error`, but the
cold tier has already been written. -/
def set_feature_cache (featureName date : String) (tsCodes : List String)
    (client : Option RedisClient) (cold : ColdTier) :
    Except String Unit × Option RedisClient × ColdTier :=
  let cold' := save_feature_result cold featureName date tsCodes
  match client with
  | some c =>
    match redisSet c (featureCacheKey featureName date) tsCodes FEATURE_CACHE_TTL_SECONDS with
    | .ok c' => (.ok (), some c', cold')
    | .error e => (.error e, some c, cold')
  | none => (.ok (), none, cold')

/-- Updating then looking up the same key yields the new value. -/
lemma alookup_aupdate_self {α β : Type} [DecidableEq α] (k : α) (v : β)
    (l : List (α × β)) : alookup k (aupdate k v l) = some v := by
  induction l with
  | nil => simp [alookup, aupdate]
  | cons hd tl ih =>
    obtain ⟨a, b⟩ := hd
    by_cases h : a = k
    · simp [alookup, aupdate, h]
    · simp [alookup, aupdate, h, ih]

/-- `set_feature_cache` on a reachable client, fully evaluated. -/
lemma set_feature_cache_reachable (f d : String) (L : List String)
    (s : List (String × List String)) (cold : ColdTier) :
    set_feature_cache f d L (some (.reachable s)) cold =
      (.ok (), some (.reachable (aupdate (featureCacheKey f d) L s)),
       save_feature_result cold f d L) := rfl

/-- `get_feature_cache` on a hot-tier hit whose key is already durable
in the cold tier. -/
lemma get_feature_cache_hot_hit (f d : String) (s : List (String × List String))
    (cold : ColdTier) (r : List String)
    (h : alookup (featureCacheKey f d) s = some r)
    (hcold : (get_feature_result cold f d).isNone = false) :
    get_feature_cache f d (some (.reachable s)) cold =
      (.ok (some r), some (.reachable s), cold) := by
  simp only [get_feature_cache, redisGet]
  rw [h]
  simp [hcold]

/-- Counterexample to C3 as stated: the source has no exception handler
inside `get_feature_cache`/`set_feature_cache`, so a hot-tier
connectivity failure on an already-acquired client escapes both `get`
and `put` instead of degrading to cold-tier-only. -/
theorem c3_counterexample :
    (get_feature_cache "bbc" "20240101" (some RedisClient.unreachable) ⟨[]⟩).1 =
      .error "ConnectionError" ∧
    (set_feature_cache "bbc" "20240101" ["600000.SH"]
        (some RedisClient.unreachable) ⟨[]⟩).1 =
      .error "ConnectionError" := ⟨rfl, rfl⟩

/-- C3 amended: hot-tier connectivity failures are caught at client
acquisition (`get_redis_client` pings and returns no client on
failure); a `get` or `put` invoked without a hot-tier client completes
cold-tier-only with no exception; and on `put` the cold tier is written
first — it is updated even when a later hot-tier write raises.  A
connectivity failure raised by an already-acquired client during
`get`/`put` is not caught (see the counterexample). -/
theorem c3_amended (featureName date : String) (L : List String) (cold : ColdTier) :
    get_redis_client RedisClient.unreachable = none ∧
    get_feature_cache featureName date none cold =
      (.ok (get_feature_result cold featureName date), none, cold) ∧
    set_feature_cache featureName date L none cold =
      (.ok (), none, save_feature_result cold featureName date L) ∧
    (∀ client, (set_feature_cache featureName date L client cold).2.2 =
        save_feature_result cold featureName date L) := by
  refine ⟨rfl, ?_, rfl, ?_⟩
  · unfold get_feature_cache getFromCold
    cases h : get_feature_result cold featureName date <;> simp [h]
  · intro client
    unfold set_feature_cache
    cases client with
    | none => rfl
    | some c => cases c <;> rfl

/-- C8: with both tiers reachable, a `get` after `put(L)` returns
exactly `L`, and a second `put(L2)` on the same key fully replaces the
hit list (the subsequent `get` returns exactly `L2`, no merge). -/
theorem c8_cache_round_trip (s : List (String × List String)) (cold : ColdTier)
    (featureName date : String) (L L2 : List String) :
    (get_feature_cache featureName date
        (set_feature_cache featureName date L (some (.reachable s)) cold).2.1
        (set_feature_cache featureName date L (some (.reachable s)) cold).2.2).1 =
      .ok (some L) ∧
    (get_feature_cache featureName date
        (set_feature_cache featureName date L2
          (set_feature_cache featureName date L (some (.reachable s)) cold).2.1
          (set_feature_cache featureName date L (some (.reachable s)) cold).2.2).2.1
        (set_feature_cache featureName date L2
          (set_feature_cache featureName date L (some (.reachable s)) cold).2.1
          (set_feature_cache featureName date L (some (.reachable s)) cold).2.2).2.2).1 =
      .ok (some L2) := by
  have hc : ∀ (c : ColdTier) (v : List String),
      get_feature_result (save_feature_result c featureName date v) featureName date =
        some v := by
    intro c v
    unfold get_feature_result save_feature_result
    exact alookup_aupdate_self _ _ _
  constructor
  · rw [set_feature_cache_reachable]
    rw [get_feature_cache_hot_hit featureName date _ _ L
      (alookup_aupdate_self _ _ _) (by simp [hc])]
  · rw [set_feature_cache_reachable, set_feature_cache_reachable]
    rw [get_feature_cache_hot_hit featureName date _ _ L2
      (alookup_aupdate_self _ _ _) (by simp [hc])]

/-! ### Parallel scan orchestrator (src/alphaspike/scanner.py) -/

/-- Classification of one symbol by `_scan_symbol_worker` (or by one
iteration of the sequential loop): a clean boolean, a skip for a
too-short window, or a caught exception. -/
inductive WorkerOutcome : Type where
  | ok (signal : Bool) : WorkerOutcome
  | skip : WorkerOutcome
  | error : WorkerOutcome
  deriving Repr, DecidableEq

/-- `ScanResult` dataclass (src/alphaspike/scanner.py lines 100-109). -/
structure ScanResult where
  featureName : String
  signals : List String
  fromCache : Bool
  scanned : ℕ
  skipped : ℕ
  errors : ℕ
  deriving Repr, DecidableEq

/-- The collect loop shared by the sequential scan and the parallel
`as_completed` loop: walk the items in completion order, appending
signalling symbols and counting skips and errors on top of the starting
accumulator. -/
def collectLoop (outcome : String → WorkerOutcome) :
    List String → List String × ℕ × ℕ → List String × ℕ × ℕ
  | [], acc => acc
  | c :: cs, (signals, skipped, errors) =>
    match outcome c with
    | .ok true => collectLoop outcome cs (signals ++ [c], skipped, errors)
    | .ok false => collectLoop outcome cs (signals, skipped, errors)
    | .skip => collectLoop outcome cs (signals, skipped + 1, errors)
    | .error => collectLoop outcome cs (signals, skipped, errors + 1)

/-- The shared persist block `if redis_client: set_feature_cache(...)`
followed by constructing the `ScanResult` (the tail of both scan
paths). -/
def persistStep (featureName endDate : String) (signals : List String)
    (result : ScanResult) (client : Option RedisClient) (cold : ColdTier) :
    Except String ScanResult × Option RedisClient × ColdTier :=
  match client with
  | some c =>
    match set_feature_cache featureName endDate signals (some c) cold with
    | (.ok _, cl', cold') => (.ok result, cl', cold')
    | (.error e, cl', cold') => (.error e, cl', cold')
  | none => (.ok result, none, cold)

/-- `_scan_feature_parallel` (src/alphaspike/scanner.py lines 222-290).
`inPreload` is membership in the caller-supplied `data_cache`; `outcome`
is the deterministic per-symbol worker result; `completionOrder` is the
order in which `as_completed` yields the work items (a permutation of
them); `maxWorkers` does not enter the aggregation.  The persist step
runs only when a client object is present and some work item was
dispatched, exactly as in the source; a raising hot-tier write
propagates as `.error`. -/
def scan_feature_parallel (featureName endDate : String) (tsCodes : List String)
    (inPreload : String → Bool) (outcome : String → WorkerOutcome)
    (completionOrder : List String) (maxWorkers : ℕ)
    (redisClient : Option RedisClient) (cold : ColdTier) :
    Except String ScanResult × Option RedisClient × ColdTier :=
  let workItems := tsCodes.filter inPreload
  let missing := tsCodes.countP (fun c => !inPreload c)
  if workItems.isEmpty then
    (.ok { featureName := featureName, signals := [], fromCache := false,
           scanned := 0, skipped := missing, errors := 0 }, redisClient, cold)
  else
    let total := workItems.length
    match collectLoop outcome completionOrder ([], missing, 0) with
    | (signals, skipped, errors) =>
      persistStep featureName endDate signals
        { featureName := featureName, signals := signals, fromCache := false,
          scanned := total - (skipped - missing) - errors,
          skipped := skipped, errors := errors }
        redisClient cold

/-- `_scan_feature_sequential` (src/alphaspike/scanner.py lines 173-218).
`outcome` classifies each symbol exactly as the loop body does: a raise
anywhere in fetch or detection is `error`, a too-short window is `skip`,
otherwise `ok` with the detector's boolean. -/
def scan_feature_sequential (featureName endDate : String) (tsCodes : List String)
    (outcome : String → WorkerOutcome)
    (redisClient : Option RedisClient) (cold : ColdTier) :
    Except String ScanResult × Option RedisClient × ColdTier :=
  match collectLoop outcome tsCodes ([], 0, 0) with
  | (signals, skipped, errors) =>
    persistStep featureName endDate signals
      { featureName := featureName, signals := signals, fromCache := false,
        scanned := tsCodes.length - skipped - errors,
        skipped := skipped, errors := errors }
      redisClient cold

/-- `scan_feature` (src/alphaspike/scanner.py lines 112-171): the cache
is consulted only when `use_cache` is true AND a (truthy) client object
is present; on a hit the cached list is returned with zero counts;
otherwise the scan dispatches to the parallel path when a preloaded
`data_cache` was supplied, else to the sequential path. -/
def scan_feature (featureName endDate : String) (tsCodes : List String)
    (useCache : Bool) (redisClient : Option RedisClient)
    (dataCache : Option (String → Bool)) (outcome : String → WorkerOutcome)
    (completionOrder : List String) (maxWorkers : ℕ) (cold : ColdTier) :
    Except String ScanResult × Option RedisClient × ColdTier :=
  let dispatch := fun (client : Option RedisClient) (cold : ColdTier) =>
    match dataCache with
    | some inPreload =>
      scan_feature_parallel featureName endDate tsCodes inPreload outcome
        completionOrder maxWorkers client cold
    | none =>
      scan_feature_sequential featureName endDate tsCodes outcome client cold
  if useCache && redisClient.isSome then
    match get_feature_cache featureName endDate redisClient cold with
    | (.ok (some cached), cl', cold') =>
      (.ok { featureName := featureName, signals := cached, fromCache := true,
             scanned := 0, skipped := 0, errors := 0 }, cl', cold')
    | (.ok none, cl', cold') => dispatch cl' cold'
    | (.error e, cl', cold') => (.error e, cl', cold')
  else dispatch redisClient cold

/-- Closed form of the collect loop: appended signals are the filter of
the walked list, skip/error counters add the respective counts. -/
lemma collectLoop_eq (outcome : String → WorkerOutcome) (l : List String)
    (s₀ : List String) (k₀ e₀ : ℕ) :
    collectLoop outcome l (s₀, k₀, e₀) =
      (s₀ ++ l.filter (fun c => outcome c = WorkerOutcome.ok true),
       k₀ + l.countP (fun c => outcome c = WorkerOutcome.skip),
       e₀ + l.countP (fun c => outcome c = WorkerOutcome.error)) := by
  induction l generalizing s₀ k₀ e₀ with
  | nil => simp [collectLoop]
  | cons c cs ih =>
    rcases h : outcome c with b | _ | _
    · cases b
      · simp [collectLoop, h, ih, List.filter_cons, List.countP_cons]
      · simp [collectLoop, h, ih, List.filter_cons, List.countP_cons]
    · simp [collectLoop, h, ih, List.filter_cons, List.countP_cons, Nat.add_assoc,
        Nat.add_comm]
    · simp [collectLoop, h, ih, List.filter_cons, List.countP_cons, Nat.add_assoc,
        Nat.add_comm]

/-- Preload-absentees plus dispatched work items partition the
universe. -/
lemma countP_not_add_filter_length {α : Type} (p : α → Bool) (l : List α) :
    l.countP (fun a => !p a) + (l.filter p).length = l.length := by
  induction l with
  | nil => simp
  | cons a l ih =>
    cases h : p a <;>
      simp [List.countP_cons, List.filter_cons, h, ← ih] <;> omega

/-- Skips and errors never exceed the number of walked items. -/
lemma countP_skip_add_error_le (outcome : String → WorkerOutcome) (l : List String) :
    l.countP (fun c => outcome c = WorkerOutcome.skip) +
      l.countP (fun c => outcome c = WorkerOutcome.error) ≤ l.length := by
  induction l with
  | nil => simp
  | cons c cs ih =>
    rcases h : outcome c with b | _ | _ <;>
      simp [List.countP_cons, h] <;> omega

/-- Closed form of `_scan_feature_parallel`. -/
lemma scan_feature_parallel_eq (featureName endDate : String) (tsCodes : List String)
    (inPreload : String → Bool) (outcome : String → WorkerOutcome)
    (order : List String) (w : ℕ) (client : Option RedisClient) (cold : ColdTier) :
    scan_feature_parallel featureName endDate tsCodes inPreload outcome order w
        client cold =
      if (tsCodes.filter inPreload).isEmpty then
        (.ok { featureName := featureName, signals := [], fromCache := false,
               scanned := 0, skipped := tsCodes.countP (fun c => !inPreload c),
               errors := 0 }, client, cold)
      else
        persistStep featureName endDate
          (order.filter (fun c => outcome c = WorkerOutcome.ok true))
          { featureName := featureName,
            signals := order.filter (fun c => outcome c = WorkerOutcome.ok true),
            fromCache := false,
            scanned := (tsCodes.filter inPreload).length -
              order.countP (fun c => outcome c = WorkerOutcome.skip) -
              order.countP (fun c => outcome c = WorkerOutcome.error),
            skipped := tsCodes.countP (fun c => !inPreload c) +
              order.countP (fun c => outcome c = WorkerOutcome.skip),
            errors := order.countP (fun c => outcome c = WorkerOutcome.error) }
          client cold := by
  unfold scan_feature_parallel
  simp only [collectLoop_eq]
  simp [Nat.add_sub_cancel_left, Nat.sub_sub]

/-- A successful `persistStep` returns the constructed `ScanResult`
unchanged. -/
lemma persistStep_ok {featureName endDate : String} {signals : List String}
    {res r : ScanResult} {client cl' : Option RedisClient} {cold cold' : ColdTier}
    (h : persistStep featureName endDate signals res client cold = (.ok r, cl', cold')) :
    r = res := by
  rcases client with _ | c
  · simp [persistStep, Prod.ext_iff] at h
    exact h.1.symm
  · rcases c with s | _
    · simp [persistStep, set_feature_cache_reachable, Prod.ext_iff] at h
      exact h.1.symm
    · simp [persistStep, set_feature_cache, redisSet, Prod.ext_iff] at h

/-- Without a client object, `persistStep` leaves both tiers untouched. -/
lemma persistStep_none (featureName endDate : String) (signals : List String)
    (res : ScanResult) (cold : ColdTier) :
    persistStep featureName endDate signals res none cold = (.ok res, none, cold) := rfl

/-- With a reachable client, `persistStep` writes through: cold tier
first, then the hot tier. -/
lemma persistStep_reachable (featureName endDate : String) (signals : List String)
    (res : ScanResult) (s : List (String × List String)) (cold : ColdTier) :
    persistStep featureName endDate signals res (some (.reachable s)) cold =
      (.ok res,
       some (.reachable (aupdate (featureCacheKey featureName endDate) signals s)),
       save_feature_result cold featureName endDate signals) := rfl

/-- C2: scan partition completeness — for every universe, preload map
and per-symbol worker outcome assignment, a non-cached scan (parallel,
with the completion order any permutation of the work items, or
sequential) satisfies `scanned + skipped + errors = |universe|`
(preload-absentees counted as skipped), and every symbol on the hit
list was classified ok with signal true. -/
theorem c2_scan_partition (featureName endDate : String) (tsCodes : List String)
    (inPreload : String → Bool) (outcome : String → WorkerOutcome)
    (w : ℕ) (client : Option RedisClient) (cold : ColdTier) :
    (∀ order, order.Perm (tsCodes.filter inPreload) →
      ∀ r cl' cold', scan_feature_parallel featureName endDate tsCodes inPreload
          outcome order w client cold = (.ok r, cl', cold') →
        r.scanned + r.skipped + r.errors = tsCodes.length ∧
        ∀ c ∈ r.signals, outcome c = WorkerOutcome.ok true) ∧
    (∀ r cl' cold', scan_feature_sequential featureName endDate tsCodes outcome
        client cold = (.ok r, cl', cold') →
      r.scanned + r.skipped + r.errors = tsCodes.length ∧
      ∀ c ∈ r.signals, outcome c = WorkerOutcome.ok true) := by
  have hpart := countP_not_add_filter_length inPreload tsCodes
  constructor
  · intro order hperm r cl' cold' heq
    rw [scan_feature_parallel_eq] at heq
    by_cases hempty : (tsCodes.filter inPreload).isEmpty
    · rw [if_pos hempty] at heq
      simp only [Prod.ext_iff] at heq
      obtain ⟨h1, -⟩ := heq
      injection h1 with h1
      subst h1
      have hfil : tsCodes.filter inPreload = [] := List.isEmpty_iff.mp hempty
      rw [hfil] at hpart
      constructor
      · simpa using hpart
      · intro c hc
        simp at hc
    · rw [if_neg hempty] at heq
      have hr := persistStep_ok heq
      subst hr
      have hle := countP_skip_add_error_le outcome order
      have hlen := hperm.length_eq
      constructor
      · show (tsCodes.filter inPreload).length -
            order.countP (fun c => outcome c = WorkerOutcome.skip) -
            order.countP (fun c => outcome c = WorkerOutcome.error) +
            (tsCodes.countP (fun c => !inPreload c) +
              order.countP (fun c => outcome c = WorkerOutcome.skip)) +
            order.countP (fun c => outcome c = WorkerOutcome.error) = tsCodes.length
        omega
      · intro c hc
        simpa using (List.mem_filter.mp hc).2
  · intro r cl' cold' heq
    unfold scan_feature_sequential at heq
    simp only [collectLoop_eq] at heq
    have hr := persistStep_ok heq
    subst hr
    have hle := countP_skip_add_error_le outcome tsCodes
    constructor
    · show tsCodes.length -
          (0 + tsCodes.countP (fun c => outcome c = WorkerOutcome.skip)) -
          (0 + tsCodes.countP (fun c => outcome c = WorkerOutcome.error)) +
          (0 + tsCodes.countP (fun c => outcome c = WorkerOutcome.skip)) +
          (0 + tsCodes.countP (fun c => outcome c = WorkerOutcome.error)) =
          tsCodes.length
      omega
    · intro c hc
      simp only [List.nil_append] at hc
      simpa using (List.mem_filter.mp hc).2

/-- Concrete result for the C2 witness. -/
def c2R : ScanResult :=
  { featureName := "bbc", signals := ["A"], fromCache := false, scanned := 1,
    skipped := 0, errors := 0 }

/-- Witness for C2 at a one-symbol universe. -/
theorem c2_witness : c2R.scanned + c2R.skipped + c2R.errors =
    (["A"] : List String).length :=
  ((c2_scan_partition "bbc" "20240101" ["A"] (fun _ => true)
      (fun _ => WorkerOutcome.ok true) 6 none ⟨[]⟩).1
    ["A"] (List.Perm.refl _) c2R none ⟨[]⟩ rfl).1

/-- C9: scan order-independence and determinism — for deterministic
per-symbol outcomes, the aggregate of a non-cached parallel scan (hit
list as a set, and the scanned/skipped/error counts) is the same under
any permutation of the completion order and under any `max_workers`
value. -/
theorem c9_order_independence (featureName endDate : String) (tsCodes : List String)
    (inPreload : String → Bool) (outcome : String → WorkerOutcome)
    (order1 order2 : List String) (w1 w2 : ℕ) (client : Option RedisClient)
    (cold : ColdTier)
    (h1 : order1.Perm (tsCodes.filter inPreload))
    (h2 : order2.Perm (tsCodes.filter inPreload)) :
    ∀ r1 cl1 cold1 r2 cl2 cold2,
      scan_feature_parallel featureName endDate tsCodes inPreload outcome order1 w1
          client cold = (.ok r1, cl1, cold1) →
      scan_feature_parallel featureName endDate tsCodes inPreload outcome order2 w2
          client cold = (.ok r2, cl2, cold2) →
      r1.signals.Perm r2.signals ∧ r1.signals.toFinset = r2.signals.toFinset ∧
      r1.scanned = r2.scanned ∧ r1.skipped = r2.skipped ∧
      r1.errors = r2.errors ∧ r1.fromCache = r2.fromCache := by
  intro r1 cl1 cold1 r2 cl2 cold2 heq1 heq2
  have hp : order1.Perm order2 := h1.trans h2.symm
  rw [scan_feature_parallel_eq] at heq1 heq2
  by_cases hempty : (tsCodes.filter inPreload).isEmpty
  · rw [if_pos hempty] at heq1 heq2
    simp only [Prod.ext_iff] at heq1 heq2
    obtain ⟨e1, -⟩ := heq1
    obtain ⟨e2, -⟩ := heq2
    injection e1 with e1
    injection e2 with e2
    subst e1
    subst e2
    simp
  · rw [if_neg hempty] at heq1 heq2
    have hr1 := persistStep_ok heq1
    have hr2 := persistStep_ok heq2
    subst hr1
    subst hr2
    have hsig : (order1.filter (fun c => outcome c = WorkerOutcome.ok true)).Perm
        (order2.filter (fun c => outcome c = WorkerOutcome.ok true)) := hp.filter _
    have hskip : order1.countP (fun c => outcome c = WorkerOutcome.skip) =
        order2.countP (fun c => outcome c = WorkerOutcome.skip) := hp.countP_eq _
    have herr : order1.countP (fun c => outcome c = WorkerOutcome.error) =
        order2.countP (fun c => outcome c = WorkerOutcome.error) := hp.countP_eq _
    refine ⟨hsig, List.toFinset_eq_of_perm _ _ hsig, ?_, ?_, ?_, rfl⟩
    · show (tsCodes.filter inPreload).length -
          order1.countP (fun c => outcome c = WorkerOutcome.skip) -
          order1.countP (fun c => outcome c = WorkerOutcome.error) =
        (tsCodes.filter inPreload).length -
          order2.countP (fun c => outcome c = WorkerOutcome.skip) -
          order2.countP (fun c => outcome c = WorkerOutcome.error)
      rw [hskip, herr]
    · show tsCodes.countP (fun c => !inPreload c) +
          order1.countP (fun c => outcome c = WorkerOutcome.skip) =
        tsCodes.countP (fun c => !inPreload c) +
          order2.countP (fun c => outcome c = WorkerOutcome.skip)
      rw [hskip]
    · exact herr

/-- Outcome map for the C9 witness. -/
def c9Outcome : String → WorkerOutcome :=
  fun c => if c = "A" then .ok true else .skip

/-- Concrete result for the C9 witness (reached from both completion
orders). -/
def c9R : ScanResult :=
  { featureName := "bbc", signals := ["A"], fromCache := false, scanned := 1,
    skipped := 1, errors := 0 }

/-- Witness for C9: the two completion orders of a two-symbol scan, with
different worker counts, both reach `c9R`. -/
theorem c9_witness : c9R.signals.Perm c9R.signals ∧
    c9R.signals.toFinset = c9R.signals.toFinset ∧
    c9R.scanned = c9R.scanned ∧ c9R.skipped = c9R.skipped ∧
    c9R.errors = c9R.errors ∧ c9R.fromCache = c9R.fromCache :=
  c9_order_independence "bbc" "20240101" ["A", "B"] (fun _ => true) c9Outcome
    ["A", "B"] ["B", "A"] 4 8 none ⟨[]⟩
    (List.Perm.refl _) (List.Perm.swap "A" "B" [])
    c9R none ⟨[]⟩ c9R none ⟨[]⟩ rfl rfl

/-- Counterexample to C4 as stated: a parallel scan with work dispatched
but no hot-tier client object returns without writing the hit list to
either tier — the cold tier is untouched and does not contain the hit
list afterwards. -/
theorem c4_counterexample :
    scan_feature_parallel "bbc" "20240101" ["600000.SH"] (fun _ => true)
        (fun _ => WorkerOutcome.ok true) ["600000.SH"] 6 none ⟨[]⟩ =
      (.ok { featureName := "bbc", signals := ["600000.SH"], fromCache := false,
             scanned := 1, skipped := 0, errors := 0 }, none, (⟨[]⟩ : ColdTier)) ∧
    get_feature_result ⟨[]⟩ "bbc" "20240101" = none := ⟨rfl, rfl⟩

/-- C4 amended: the persist step runs iff a hot-tier client object is
present and (on the parallel path) at least one work item was
dispatched; then the hit list is written through, cold tier included.
With no client, or with an empty work-item list, nothing is written to
either tier. -/
theorem c4_amended (featureName endDate : String) (tsCodes : List String)
    (inPreload : String → Bool) (outcome : String → WorkerOutcome)
    (order : List String) (w : ℕ) (s : List (String × List String)) (cold : ColdTier) :
    (tsCodes.filter inPreload ≠ [] →
      (scan_feature_parallel featureName endDate tsCodes inPreload outcome order w
          (some (.reachable s)) cold).2.2 =
        save_feature_result cold featureName endDate
          (order.filter (fun c => outcome c = WorkerOutcome.ok true))) ∧
    ((scan_feature_parallel featureName endDate tsCodes inPreload outcome order w
        none cold).2.2 = cold) ∧
    (tsCodes.filter inPreload = [] → ∀ client,
      (scan_feature_parallel featureName endDate tsCodes inPreload outcome order w
          client cold).2.2 = cold) ∧
    ((scan_feature_sequential featureName endDate tsCodes outcome
        (some (.reachable s)) cold).2.2 =
      save_feature_result cold featureName endDate
        (tsCodes.filter (fun c => outcome c = WorkerOutcome.ok true))) ∧
    ((scan_feature_sequential featureName endDate tsCodes outcome none cold).2.2 =
      cold) := by
  refine ⟨?_, ?_, ?_, ?_, ?_⟩
  · intro hne
    rw [scan_feature_parallel_eq,
      if_neg (fun h => hne (List.isEmpty_iff.mp h)), persistStep_reachable]
  · rw [scan_feature_parallel_eq]
    by_cases hempty : (tsCodes.filter inPreload).isEmpty
    · rw [if_pos hempty]
    · rw [if_neg hempty, persistStep_none]
  · intro hfil client
    rw [scan_feature_parallel_eq, if_pos (List.isEmpty_iff.mpr hfil)]
  · unfold scan_feature_sequential
    simp only [collectLoop_eq, List.nil_append]
    rw [persistStep_reachable]
  · unfold scan_feature_sequential
    simp only [collectLoop_eq, List.nil_append]
    rw [persistStep_none]

/-- Witness for C4 amended: the persist clause at a one-symbol scan with
a reachable client. -/
theorem c4_amended_witness :
    (scan_feature_parallel "bbc" "20240101" ["600000.SH"] (fun _ => true)
        (fun _ => WorkerOutcome.ok true) ["600000.SH"] 6
        (some (.reachable [])) ⟨[]⟩).2.2 =
      save_feature_result ⟨[]⟩ "bbc" "20240101"
        (["600000.SH"].filter
          (fun c => (fun _ => WorkerOutcome.ok true) c = WorkerOutcome.ok true)) :=
  (c4_amended "bbc" "20240101" ["600000.SH"] (fun _ => true)
    (fun _ => WorkerOutcome.ok true) ["600000.SH"] 6 [] ⟨[]⟩).1 (by simp)

/-- `get_feature_cache` on a hot-tier miss with the key durable in the
cold tier: the cold value is returned and the hot tier repopulated. -/
lemma get_feature_cache_hot_miss (f d : String) (s : List (String × List String))
    (cold : ColdTier) (L : List String)
    (hmiss : alookup (featureCacheKey f d) s = none)
    (hcold : get_feature_result cold f d = some L) :
    get_feature_cache f d (some (.reachable s)) cold =
      (.ok (some L), some (.reachable (aupdate (featureCacheKey f d) L s)), cold) := by
  simp only [get_feature_cache, redisGet, hmiss]
  simp only [getFromCold, hcold, redisSet]

/-- Counterexample to C5 as stated: with the hit list stored in the cold
tier but no hot-tier client object, `scan_feature` with `use_cache=true`
bypasses the cache entirely and performs a fresh scan (provenance not
cached, non-zero counts, stored list ignored). -/
theorem c5_counterexample :
    scan_feature "bbc" "20240101" ["000001.SZ"] true none (some (fun _ => true))
        (fun _ => WorkerOutcome.ok false) ["000001.SZ"] 6
        ⟨[(("bbc", "20240101"), ["600000.SH"])]⟩ =
      (.ok { featureName := "bbc", signals := [], fromCache := false, scanned := 1,
             skipped := 0, errors := 0 }, none,
       (⟨[(("bbc", "20240101"), ["600000.SH"])]⟩ : ColdTier)) ∧
    get_feature_result ⟨[(("bbc", "20240101"), ["600000.SH"])]⟩ "bbc" "20240101" =
      some ["600000.SH"] := ⟨rfl, rfl⟩

/-- C5 amended: cached reads require a client object.  When one is
present and reachable, a hit list stored in the cold tier is returned
with provenance cached and zero counts, whether the hot tier misses
(it is then repopulated) or already holds the list. -/
theorem c5_amended (featureName date : String) (L : List String) (tsCodes : List String)
    (dataCache : Option (String → Bool)) (outcome : String → WorkerOutcome)
    (order : List String) (w : ℕ) (s : List (String × List String)) (cold : ColdTier)
    (hcold : get_feature_result cold featureName date = some L) :
    (alookup (featureCacheKey featureName date) s = none →
      scan_feature featureName date tsCodes true (some (.reachable s)) dataCache
          outcome order w cold =
        (.ok { featureName := featureName, signals := L, fromCache := true,
               scanned := 0, skipped := 0, errors := 0 },
         some (.reachable (aupdate (featureCacheKey featureName date) L s)), cold)) ∧
    (alookup (featureCacheKey featureName date) s = some L →
      scan_feature featureName date tsCodes true (some (.reachable s)) dataCache
          outcome order w cold =
        (.ok { featureName := featureName, signals := L, fromCache := true,
               scanned := 0, skipped := 0, errors := 0 },
         some (.reachable s), cold)) := by
  constructor
  · intro hmiss
    unfold scan_feature
    simp only [Option.isSome_some, Bool.and_true, if_true]
    rw [get_feature_cache_hot_miss featureName date s cold L hmiss hcold]
  · intro hhit
    unfold scan_feature
    simp only [Option.isSome_some, Bool.and_true, if_true]
    rw [get_feature_cache_hot_hit featureName date s cold L hhit (by rw [hcold]; rfl)]

/-- Witness for C5 amended: a cold-tier-only hit list served as cached
with a reachable but empty hot tier. -/
theorem c5_amended_witness :
    scan_feature "bbc" "20240101" [] true (some (.reachable [])) none
        (fun _ => WorkerOutcome.ok false) [] 6
        ⟨[(("bbc", "20240101"), ["600000.SH"])]⟩ =
      (.ok { featureName := "bbc", signals := ["600000.SH"], fromCache := true,
             scanned := 0, skipped := 0, errors := 0 },
       some (.reachable (aupdate (featureCacheKey "bbc" "20240101") ["600000.SH"] [])),
       (⟨[(("bbc", "20240101"), ["600000.SH"])]⟩ : ColdTier)) :=
  (c5_amended "bbc" "20240101" ["600000.SH"] [] none
    (fun _ => WorkerOutcome.ok false) [] 6 []
    ⟨[(("bbc", "20240101"), ["600000.SH"])]⟩ rfl).1 rfl

end AlphaSpike
